import Mathlib

/-
  Verification development for the parsdao/node repository.

  The Go sources are shallowly embedded as Lean definitions:
  - Go byte slices become lists of naturals; a Go nil slice or nil pointer
    becomes an Option value.
  - Go errors become an inductive GoError; a nil error is Option.none.
  - Methods that mutate their receiver return the updated receiver
    paired with the result, since Go mutates in place.
  - context.Context parameters are dropped: no embedded code path reads them.
  Components of the repository that live in external modules
  (luxfi/session, luxfi/ids) are not part of the sources; where a claim
  depends on them they are modelled from the specification, and each such
  definition carries a doc comment starting with Modelled from the spec.
-/

namespace Parsd

/-- Go byte slices, modelled as lists of naturals. -/
abbrev Bytes := List Nat

/-- Go error values: a message built by errors.New or fmt.Errorf, possibly
wrapping an inner error via the w verb. A nil Go error is Option.none. -/
inductive GoError where
  | msg (s : String)
  | wrap (s : String) (inner : GoError)
deriving DecidableEq

/-- config.StorageConfig from config/config.go. -/
structure StorageConfig where
  enabled : Bool
  maxSize : Nat
  retentionDays : Int
  dataDir : String
deriving DecidableEq

/-- config.OnionConfig from config/config.go. -/
structure OnionConfig where
  enabled : Bool
  hopCount : Int
deriving DecidableEq

/-- config.SessionConfig from config/config.go; the source field IDPrefix is
named idPref here. -/
structure SessionConfig where
  idPref : String
  keyRotationDays : Int
deriving DecidableEq

/-- config.ParsConfig from config/config.go. -/
structure ParsConfig where
  enabled : Bool
  storage : StorageConfig
  onion : OnionConfig
  session : SessionConfig
deriving DecidableEq

/-- storage.Node from the storage package: configuration plus a running flag.
The source holds no record table at all; its Store, Retrieve and Delete
bodies are TODO stubs. -/
structure Node where
  cfg : StorageConfig
  running : Bool
deriving DecidableEq

/-- storage.NewNode: returns a node with the given configuration and the
zero-valued running flag, and a nil error. -/
def NewNode (cfg : StorageConfig) : Option Node × Option GoError :=
  (some { cfg := cfg, running := false }, none)

/-- storage Node.Start: sets running and returns nil. -/
def Node.Start (n : Node) : Node × Option GoError :=
  ({ n with running := true }, none)

/-- storage Node.Stop: clears running. -/
def Node.Stop (n : Node) : Node :=
  { n with running := false }

/-- storage Node.Store: the body is a TODO stub that returns nil without
reading key, data or ttl and without touching any state. -/
def Node.Store (n : Node) (key : String) (data : Bytes) (ttl : Int) :
    Node × Option GoError :=
  (n, none)

/-- storage Node.Retrieve: the body is a TODO stub returning a nil byte
slice and a nil error for every key. -/
def Node.Retrieve (n : Node) (key : String) : Option Bytes × Option GoError :=
  (none, none)

/-- storage Node.Delete: the body is a TODO stub that returns nil without
touching any state. -/
def Node.Delete (n : Node) (key : String) : Node × Option GoError :=
  (n, none)

/-- messaging.Message from messaging/messenger.go; time.Time is modelled as
seconds since the epoch. -/
structure Message where
  id : String
  senderID : String
  recipientID : String
  ciphertext : Bytes
  signature : Bytes
  timestamp : Int
  ttl : Int
deriving DecidableEq

/-- messaging.Messenger from messaging/messenger.go. -/
structure Messenger where
  cfg : ParsConfig
  running : Bool
deriving DecidableEq

/-- messaging.NewMessenger. -/
def NewMessenger (cfg : ParsConfig) : Option Messenger × Option GoError :=
  (some { cfg := cfg, running := false }, none)

/-- Messenger.Start: sets running and returns nil. -/
def Messenger.Start (m : Messenger) : Messenger × Option GoError :=
  ({ m with running := true }, none)

/-- Messenger.Stop: clears running. -/
def Messenger.Stop (m : Messenger) : Messenger :=
  { m with running := false }

/-- Messenger.Send: the body is a TODO stub that returns nil; it never reads
the running flag, never reads msg, and leaves the receiver unchanged. -/
def Messenger.Send (m : Messenger) (msg : Message) : Messenger × Option GoError :=
  (m, none)

/-- Messenger.Receive: the body is a TODO stub returning a nil message slice
and a nil error; it never reads the running flag and leaves the receiver
unchanged. -/
def Messenger.Receive (m : Messenger) (sessionID : String) :
    Messenger × (Option (List Message) × Option GoError) :=
  (m, (none, none))

/-- messaging.Identity from messaging/messenger.go. -/
structure Identity where
  sessionID : String
  kemPublicKey : Bytes
  kemSecretKey : Bytes
  dsaPublicKey : Bytes
  dsaSecretKey : Bytes
deriving DecidableEq

/-- messaging.GenerateIdentity: the body is a TODO stub that returns a nil
identity pointer together with a nil error. -/
def GenerateIdentity : Option Identity × Option GoError :=
  (none, none)

/-- vm.HealthStatus from the vm package; the Go zero value of Message is the
empty string. -/
structure HealthStatus where
  healthy : Bool
  message : String
deriving DecidableEq

/-- vm.ParsVM: configuration, optional storage node and messenger pointers
(nil when the subsystem is disabled), and a running flag. -/
structure ParsVM where
  cfg : ParsConfig
  storage : Option Node
  messenger : Option Messenger
  running : Bool
deriving DecidableEq

/-- vm.NewParsVM: when the subsystem is disabled only the configuration is
kept; otherwise the storage node and messenger are constructed. -/
def NewParsVM (cfg : ParsConfig) : Option ParsVM × Option GoError :=
  if !cfg.enabled then
    (some { cfg := cfg, storage := none, messenger := none, running := false }, none)
  else
    match NewNode cfg.storage with
    | (_, some err) => (none, some (GoError.wrap ("failed to create storage node") err))
    | (sn, none) =>
      match NewMessenger cfg with
      | (_, some err) => (none, some (GoError.wrap ("failed to create messenger") err))
      | (ms, none) =>
        (some { cfg := cfg, storage := sn, messenger := ms, running := false }, none)

/-- ParsVM.Start: returns nil immediately when disabled, leaving every flag
untouched; otherwise starts the storage node and the messenger and only
then sets running. -/
def ParsVM.Start (p : ParsVM) : ParsVM × Option GoError :=
  if !p.cfg.enabled then
    (p, none)
  else
    match p.storage with
    | some sn =>
      match sn.Start with
      | (sn2, none) =>
        let p1 := { p with storage := some sn2 }
        match p1.messenger with
        | some ms =>
          match ms.Start with
          | (ms2, none) => ({ p1 with messenger := some ms2, running := true }, none)
          | (_, some err) => (p1, some (GoError.wrap ("failed to start messenger") err))
        | none => ({ p1 with running := true }, none)
      | (_, some err) => (p, some (GoError.wrap ("failed to start storage") err))
    | none =>
      match p.messenger with
      | some ms =>
        match ms.Start with
        | (ms2, none) => ({ p with messenger := some ms2, running := true }, none)
        | (_, some err) => (p, some (GoError.wrap ("failed to start messenger") err))
      | none => ({ p with running := true }, none)

/-- ParsVM.Stop: clears running, then stops messenger and storage when
present, and returns nil. -/
def ParsVM.Stop (p : ParsVM) : ParsVM × Option GoError :=
  let p1 := { p with running := false }
  let p2 :=
    match p1.messenger with
    | some ms => { p1 with messenger := some ms.Stop }
    | none => p1
  let p3 :=
    match p2.storage with
    | some sn => { p2 with storage := some sn.Stop }
    | none => p2
  (p3, none)

/-- ParsVM.Health, verbatim from the source: disabled yields healthy with
the disabled message, not running yields unhealthy, and otherwise the
literal healthy status with an empty message is returned unconditionally. -/
def ParsVM.Health (p : ParsVM) : HealthStatus :=
  if !p.cfg.enabled then { healthy := true, message := ("disabled") }
  else if !p.running then { healthy := false, message := ("not running") }
  else { healthy := true, message := ("") }

/-- ParsVM.SendMessage: errors when not running, otherwise delegates to the
messenger. A nil messenger while running would be a nil dereference in Go;
it is modelled as an error and is unreachable from constructed states. -/
def ParsVM.SendMessage (p : ParsVM) (msg : Message) : ParsVM × Option GoError :=
  if !p.running then (p, some (GoError.msg ("ParsVM not running")))
  else
    match p.messenger with
    | some ms =>
      match ms.Send msg with
      | (ms2, e) => ({ p with messenger := some ms2 }, e)
    | none => (p, some (GoError.msg ("nil messenger")))

/-- ParsVM.ReceiveMessages: errors when not running, otherwise delegates to
the messenger. -/
def ParsVM.ReceiveMessages (p : ParsVM) (sessionID : String) :
    ParsVM × (Option (List Message) × Option GoError) :=
  if !p.running then (p, (none, some (GoError.msg ("ParsVM not running"))))
  else
    match p.messenger with
    | some ms =>
      match ms.Receive sessionID with
      | (ms2, r) => ({ p with messenger := some ms2 }, r)
    | none => (p, (none, some (GoError.msg ("nil messenger"))))

/-- Participant and session identifiers of the external luxfi/ids module
(opaque 32-byte identifiers), modelled abstractly as naturals. -/
abbrev ID := Nat

/-- Modelled from the spec: the session status enum Pending, Active, Closed
of section 4.2; the implementing type lives in the external luxfi/session
module, not under the repository sources. -/
inductive SessionStatus where
  | pending
  | active
  | closed
deriving DecidableEq

/-- Modelled from the spec: the error kinds of sections 4.2 and 7 that the
session manager can return; notActive covers a send on a Pending session,
which section 4.2 excludes by validating the session is Active. -/
inductive SessionError where
  | notFound
  | sessionClosed
  | notActive
deriving DecidableEq

/-- Modelled from the spec: the envelope the session manager returns from
SendMessage, wrapping the inputs as section 4.2 describes. -/
structure SessionMsg where
  sessionID : ID
  senderID : ID
  ciphertext : Bytes
  signature : Bytes
deriving DecidableEq

/-- First-match lookup in an association list of session statuses. -/
def lookupStatus : List (ID × SessionStatus) → ID → Option SessionStatus
  | [], _ => none
  | (k, s) :: rest, id => if k = id then some s else lookupStatus rest id

/-- Replace the status of the first entry with the given identifier. -/
def setStatus : List (ID × SessionStatus) → ID → SessionStatus → List (ID × SessionStatus)
  | [], _, _ => []
  | (k, s) :: rest, id, st =>
    if k = id then (k, st) :: rest else (k, s) :: setStatus rest id st

/-- Modelled from the spec: the session table kept by the external
luxfi/session virtual machine, reduced to the per-session status that the
lifecycle claims concern. -/
structure SessionVM where
  sessions : List (ID × SessionStatus)
deriving DecidableEq

/-- Modelled from the spec: CloseSession of section 4.2 transitions the
session to Closed and is idempotent; an absent identifier yields NotFound. -/
def SessionVM.CloseSession (v : SessionVM) (id : ID) : SessionVM × Option SessionError :=
  match lookupStatus v.sessions id with
  | none => (v, some SessionError.notFound)
  | some _ => ({ sessions := setStatus v.sessions id SessionStatus.closed }, none)

/-- Modelled from the spec: SendMessage of section 4.2 validates that the
session is Active, returning the envelope on success, NotFound for an
absent identifier and SessionClosed for a Closed one. -/
def SessionVM.SendMessage (v : SessionVM) (sessionID : ID) (senderID : ID)
    (ciphertext : Bytes) (signature : Bytes) :
    Option SessionMsg × Option SessionError :=
  match lookupStatus v.sessions sessionID with
  | none => (none, some SessionError.notFound)
  | some SessionStatus.closed => (none, some SessionError.sessionClosed)
  | some SessionStatus.pending => (none, some SessionError.notActive)
  | some SessionStatus.active =>
    (some { sessionID := sessionID, senderID := senderID,
            ciphertext := ciphertext, signature := signature }, none)

/-- The participant parsing loop of SessionProvider.CreateSession: each
string is parsed by the external ids.FromString, passed in as a parameter;
the first failure aborts with the wrapping error of the source. -/
def parseParticipants (fromString : String → Except GoError ID) :
    List String → Except GoError (List ID)
  | [] => Except.ok []
  | p :: rest =>
    match fromString p with
    | Except.error err =>
      Except.error (GoError.wrap (("invalid participant ID ") ++ p) err)
    | Except.ok id =>
      match parseParticipants fromString rest with
      | Except.error e => Except.error e
      | Except.ok restIDs => Except.ok (id :: restIDs)

/-- SessionProvider.CreateSession from the vm package: parses every
participant string and only then delegates to the external session virtual
machine, whose behaviour is passed in as vmCreate. -/
def SessionProvider.CreateSession {σ : Type}
    (fromString : String → Except GoError ID)
    (vmCreate : List ID → List Bytes → Option σ × Option GoError)
    (participantIDs : List String) (publicKeys : List Bytes) :
    Option σ × Option GoError :=
  match parseParticipants fromString participantIDs with
  | Except.error err => (none, some err)
  | Except.ok participants => vmCreate participants publicKeys

/-- Modelled from the spec: a relay hop for the onion router of section 4.4,
which has no implementation under the repository sources. The keypair is
symbolic: the public key and the matching secret key are identified with a
single natural, so decryption under a key succeeds exactly when the layer
was encrypted for that key, as an authenticated cipher guarantees. -/
structure Hop where
  key : Nat
  addr : Nat
deriving DecidableEq

/-- Modelled from the spec: an onion packet of section 3, nested layers each
encrypted under one hop key; a relay layer carries the next hop address and
the innermost layer carries the original envelope. -/
inductive OnionPacket where
  | finalLayer (key : Nat) (env : Message)
  | relayLayer (key : Nat) (nextHopAddr : Nat) (inner : OnionPacket)
deriving DecidableEq

/-- Modelled from the spec: error kinds of the onion router, section 4.4. -/
inductive OnionError where
  | pathTooShort
  | invalidHopKey
  | decryptionFailed
deriving DecidableEq

/-- Modelled from the spec: the result of UnwrapOneLayer, section 4.4 -
either a forwarding instruction or the recovered envelope at the final
hop. -/
inductive UnwrapResult where
  | forward (nextHopAddr : Nat) (inner : OnionPacket)
  | finalEnvelope (env : Message)
deriving DecidableEq

/-- Modelled from the spec: layer construction of WrapForPath, section 4.4 -
the innermost layer holds the envelope encrypted under the last hop key,
and each outer layer adds the following hop address under the current hop
key. -/
def wrapLayers (env : Message) : Hop → List Hop → OnionPacket
  | h, [] => OnionPacket.finalLayer h.key env
  | h, h2 :: rest => OnionPacket.relayLayer h.key h2.addr (wrapLayers env h2 rest)

/-- Modelled from the spec: WrapForPath of section 4.4, failing with
PathTooShort when fewer hops than the configured minimum are supplied. -/
def WrapForPath (minHops : Nat) (env : Message) (path : List Hop) :
    Except OnionError OnionPacket :=
  if path.length < minHops then Except.error OnionError.pathTooShort
  else
    match path with
    | [] => Except.error OnionError.pathTooShort
    | h :: rest => Except.ok (wrapLayers env h rest)

/-- Modelled from the spec: UnwrapOneLayer of section 4.4 - decrypt exactly
one layer with the local secret key, failing closed with DecryptionFailed
under any key the layer was not encrypted for. -/
def UnwrapOneLayer (packet : OnionPacket) (localSecretKey : Nat) :
    Except OnionError UnwrapResult :=
  match packet with
  | OnionPacket.finalLayer k env =>
    if k = localSecretKey then Except.ok (UnwrapResult.finalEnvelope env)
    else Except.error OnionError.decryptionFailed
  | OnionPacket.relayLayer k nh inner =>
    if k = localSecretKey then Except.ok (UnwrapResult.forward nh inner)
    else Except.error OnionError.decryptionFailed

/-- Apply UnwrapOneLayer once per key, in hop order, expecting the final
envelope exactly at the last key. -/
def unwrapAll : List Nat → OnionPacket → Option Message
  | [], _ => none
  | k :: rest, p =>
    match UnwrapOneLayer p k with
    | Except.ok (UnwrapResult.finalEnvelope env) =>
      match rest with
      | [] => some env
      | _ :: _ => none
    | Except.ok (UnwrapResult.forward _ inner) => unwrapAll rest inner
    | Except.error _ => none

/-- Peel i relay layers structurally, reaching the packet a hop at depth i
would receive. -/
def peel : Nat → OnionPacket → Option OnionPacket
  | 0, p => some p
  | n + 1, OnionPacket.relayLayer _ _ inner => peel n inner
  | _ + 1, OnionPacket.finalLayer _ _ => none

/-- The key a layer of an onion packet is encrypted under. -/
def outerKey : OnionPacket → Nat
  | OnionPacket.finalLayer k _ => k
  | OnionPacket.relayLayer k _ _ => k

/-- Modelled from the spec: the aggregate (conjunction) of the Session
Manager and Storage Node health that section 6 requires Health to report
once running. The embedded components expose no Health method of their
own, so their running flags stand for their health. -/
def aggregateComponentsHealthy (p : ParsVM) : Bool :=
  (match p.messenger with
   | some m => m.running
   | none => false) &&
  (match p.storage with
   | some s => s.running
   | none => false)

/-- A concrete storage configuration used in concrete evaluations. -/
def cfgStoreW : StorageConfig :=
  { enabled := true, maxSize := 1024, retentionDays := 30, dataDir := ("") }

/-- A concrete storage node used in concrete evaluations. -/
def nodeW : Node := { cfg := cfgStoreW, running := true }

/-- A concrete enabled messaging configuration. -/
def parsCfgW : ParsConfig :=
  { enabled := true, storage := cfgStoreW,
    onion := { enabled := true, hopCount := 3 },
    session := { idPref := ("07"), keyRotationDays := 90 } }

/-- The same configuration with the subsystem gated off. -/
def parsCfgDisabledW : ParsConfig := { parsCfgW with enabled := false }

/-- A running ParsVM whose storage node and messenger are both stopped. -/
def pStoppedComponentsW : ParsVM :=
  { cfg := parsCfgW,
    storage := some { cfg := cfgStoreW, running := false },
    messenger := some { cfg := parsCfgW, running := false },
    running := true }

/-- A disabled ParsVM as NewParsVM constructs it. -/
def pDisabledW : ParsVM :=
  { cfg := parsCfgDisabledW, storage := none, messenger := none, running := false }

/-- An enabled ParsVM before Start. -/
def pNotRunningW : ParsVM :=
  { cfg := parsCfgW,
    storage := some { cfg := cfgStoreW, running := false },
    messenger := some { cfg := parsCfgW, running := false },
    running := false }

/-- An enabled ParsVM after Start, all components running. -/
def pRunningW : ParsVM :=
  { cfg := parsCfgW,
    storage := some { cfg := cfgStoreW, running := true },
    messenger := some { cfg := parsCfgW, running := true },
    running := true }

/-- Claim C1: the claim says Store followed by an immediate Retrieve returns
the stored data, and a Retrieve at or past expiry returns NotFound. The
source Store and Retrieve bodies are TODO stubs: Store persists nothing and
records no expiry, and Retrieve returns a nil slice and a nil error for
every key, so the data [1] stored under k1 is never returned. This theorem
evaluates the embedded code at that failing input. -/
theorem c1_store_retrieve_stub :
    (nodeW.Store ("k1") [1] 1).2 = none ∧
    (nodeW.Store ("k1") [1] 1).1.Retrieve ("k1") = (none, none) ∧
    ((nodeW.Store ("k1") [1] 1).1.Retrieve ("k1")).1 ≠ some [1] := by
  refine ⟨rfl, rfl, ?_⟩
  decide

/-- Claim C3, counterexample: a running ParsVM whose storage node and
messenger are both stopped still reports the unconditional healthy status,
while the aggregate component health the claim requires is false - Health
never consults the components. -/
theorem c3_health_counterexample :
    ParsVM.Health pStoppedComponentsW = { healthy := true, message := ("") } ∧
    aggregateComponentsHealthy pStoppedComponentsW = false := ⟨rfl, rfl⟩

/-- Claim C3, amended: Health reports the disabled status when the
subsystem is configured off and the not-running status before Start, as
the claim says; but once running it returns the literal healthy status
with an empty message unconditionally, consulting neither the Session
Manager nor the Storage Node. -/
theorem c3_health_amended (p : ParsVM) :
    (p.cfg.enabled = false →
      p.Health = { healthy := true, message := ("disabled") }) ∧
    (p.cfg.enabled = true → p.running = false →
      p.Health = { healthy := false, message := ("not running") }) ∧
    (p.cfg.enabled = true → p.running = true →
      p.Health = { healthy := true, message := ("") }) := by
  refine ⟨?_, ?_, ?_⟩
  · intro h1
    simp [ParsVM.Health, h1]
  · intro h1 h2
    simp [ParsVM.Health, h1, h2]
  · intro h1 h2
    simp [ParsVM.Health, h1, h2]

/-- Claim C3, witness: each branch of the amended statement evaluated at a
concrete ParsVM state. -/
theorem c3_health_amended_witness :
    ParsVM.Health pDisabledW = { healthy := true, message := ("disabled") } ∧
    ParsVM.Health pNotRunningW = { healthy := false, message := ("not running") } ∧
    ParsVM.Health pRunningW = { healthy := true, message := ("") } :=
  ⟨(c3_health_amended pDisabledW).1 rfl,
   (c3_health_amended pNotRunningW).2.1 rfl rfl,
   (c3_health_amended pRunningW).2.2 rfl rfl⟩

/-- Claim C4: the claim says GenerateIdentity returns a non-null identity
with the derived session identifier or fails with CryptoFailure, never
both a null identity and no error. The source body is a TODO stub that
returns exactly a nil identity pointer and a nil error; this theorem
evaluates the embedded code at that failing input. -/
theorem c4_generate_identity_stub :
    GenerateIdentity = ((none : Option Identity), (none : Option GoError)) := rfl

/-- Claim C5: the claim says Store rejects with CapacityExceeded when the
data would exceed the configured maximum size, and otherwise persists the
record. The source Store body is a TODO stub that never reads
cfg.maxSize: with a maximum size of zero bytes, storing two bytes still
returns a nil error and leaves the node state untouched, so no capacity
check and no persistence happen. -/
theorem c5_store_ignores_capacity :
    Node.Store { cfg := { enabled := true, maxSize := 0, retentionDays := 30,
                          dataDir := ("") }, running := true } ("k") [1, 2] 5 =
      ({ cfg := { enabled := true, maxSize := 0, retentionDays := 30,
                  dataDir := ("") }, running := true }, none) := rfl

/-- Claim C8: Delete always returns a nil error and leaves the node
unchanged, so it is an idempotent success no-op on never-stored, deleted
and expired keys alike; and after a Store followed by a Delete, Retrieve
yields no data and no error, the embedding of the NotFound outcome (the
source returns a nil slice and a nil error for an absent record). The
TODO stub bodies make every part hold trivially. -/
theorem c8_delete_idempotent_noop (n : Node) (k : String) (d : Bytes) (ttl : Int) :
    n.Delete k = (n, none) ∧
    ((n.Store k d ttl).1.Delete k) = ((n.Store k d ttl).1, none) ∧
    (((n.Store k d ttl).1.Delete k).1.Retrieve k) = (none, none) := ⟨rfl, rfl, rfl⟩

/-- Claim C9: constructing a ParsVM from a disabled configuration yields a
VM with no components and a cleared running flag; Start returns success
without changing any state, and SendMessage and ReceiveMessages fail with
the not-running error for every message and session identifier. -/
theorem c9_disabled_never_sends (cfg : ParsConfig) (h : cfg.enabled = false) :
    ∃ p : ParsVM,
      NewParsVM cfg = (some p, none) ∧
      p.running = false ∧
      p.Start = (p, none) ∧
      (∀ msg : Message,
        p.SendMessage msg = (p, some (GoError.msg ("ParsVM not running")))) ∧
      (∀ sid : String,
        p.ReceiveMessages sid = (p, (none, some (GoError.msg ("ParsVM not running"))))) := by
  refine ⟨{ cfg := cfg, storage := none, messenger := none, running := false },
    ?_, rfl, ?_, ?_, ?_⟩
  · simp [NewParsVM, h]
  · simp [ParsVM.Start, h]
  · intro msg
    simp [ParsVM.SendMessage]
  · intro sid
    simp [ParsVM.ReceiveMessages]

/-- Claim C9, witness: the disabled concrete configuration. -/
theorem c9_disabled_never_sends_witness :
    ∃ p : ParsVM,
      NewParsVM parsCfgDisabledW = (some p, none) ∧
      p.running = false ∧
      p.Start = (p, none) ∧
      (∀ msg : Message,
        p.SendMessage msg = (p, some (GoError.msg ("ParsVM not running")))) ∧
      (∀ sid : String,
        p.ReceiveMessages sid = (p, (none, some (GoError.msg ("ParsVM not running"))))) :=
  c9_disabled_never_sends parsCfgDisabledW rfl

/-- Looking up a key after setting its status yields the new status,
provided the key was present. -/
theorem lookup_set_self (l : List (ID × SessionStatus)) (id : ID) (st : SessionStatus) :
    ∀ s0, lookupStatus l id = some s0 →
      lookupStatus (setStatus l id st) id = some st := by
  induction l with
  | nil =>
    intro s0 h
    simp [lookupStatus] at h
  | cons kv rest ih =>
    obtain ⟨k, s⟩ := kv
    intro s0 h
    by_cases hk : k = id
    · simp [lookupStatus, setStatus, hk]
    · simp only [lookupStatus, setStatus, if_neg hk] at h ⊢
      exact ih s0 h

/-- Setting the same status twice equals setting it once. -/
theorem set_set_self (l : List (ID × SessionStatus)) (id : ID) (st : SessionStatus) :
    setStatus (setStatus l id st) id st = setStatus l id st := by
  induction l with
  | nil => rfl
  | cons kv rest ih =>
    obtain ⟨k, s⟩ := kv
    by_cases hk : k = id
    · simp [setStatus, hk]
    · simp [setStatus, hk, ih]

/-- Claim C2: once CloseSession succeeds on a session identifier, a
subsequent SendMessage on that identifier returns no envelope and fails
with SessionClosed for every sender and payload, and a second CloseSession
is a success no-op leaving the state unchanged. -/
theorem c2_close_then_send (v : SessionVM) (id sender : ID) (ct sig : Bytes)
    (h : (v.CloseSession id).2 = none) :
    ((v.CloseSession id).1).SendMessage id sender ct sig =
      (none, some SessionError.sessionClosed) ∧
    ((v.CloseSession id).1).CloseSession id = ((v.CloseSession id).1, none) := by
  have hex : ∃ s0, lookupStatus v.sessions id = some s0 := by
    unfold SessionVM.CloseSession at h
    cases hl : lookupStatus v.sessions id with
    | none =>
      rw [hl] at h
      exact absurd h (by simp)
    | some s0 => exact ⟨s0, rfl⟩
  obtain ⟨s0, hl⟩ := hex
  have hclose : v.CloseSession id =
      ({ sessions := setStatus v.sessions id SessionStatus.closed }, none) := by
    unfold SessionVM.CloseSession
    rw [hl]
  have hlook : lookupStatus (setStatus v.sessions id SessionStatus.closed) id =
      some SessionStatus.closed := lookup_set_self v.sessions id SessionStatus.closed s0 hl
  constructor
  · rw [hclose]
    unfold SessionVM.SendMessage
    rw [hlook]
  · rw [hclose]
    unfold SessionVM.CloseSession
    rw [hlook, set_set_self]

/-- A concrete session table holding one active session. -/
def sessionsW : SessionVM := { sessions := [(1, SessionStatus.active)] }

/-- Claim C2, witness: closing the active session 1 succeeds, after which a
send from sender 2 fails with SessionClosed and a second close is a no-op. -/
theorem c2_close_then_send_witness :
    ((sessionsW.CloseSession 1).1).SendMessage 1 2 [1] [2] =
      (none, some SessionError.sessionClosed) ∧
    ((sessionsW.CloseSession 1).1).CloseSession 1 =
      ((sessionsW.CloseSession 1).1, none) :=
  c2_close_then_send sessionsW 1 2 [1] [2] rfl

/-- The parsing loop fails on the first malformed participant: whenever some
identifier in the list fails to parse, the whole loop returns the wrapping
error of the source for a failing identifier in the list. -/
theorem parse_fail (fromString : String → Except GoError ID) :
    ∀ (pids : List String) (p : String) (e : GoError),
      p ∈ pids → fromString p = Except.error e →
      ∃ q e2, q ∈ pids ∧ fromString q = Except.error e2 ∧
        parseParticipants fromString pids =
          Except.error (GoError.wrap (("invalid participant ID ") ++ q) e2) := by
  intro pids
  induction pids with
  | nil =>
    intro p e hmem
    simp at hmem
  | cons r rest ih =>
    intro p e hmem hbad
    cases hr : fromString r with
    | error e3 =>
      refine ⟨r, e3, List.mem_cons_self r rest, hr, ?_⟩
      simp [parseParticipants, hr]
    | ok idv =>
      have hpr : p ∈ rest := by
        rcases List.mem_cons.mp hmem with h1 | h1
        · subst h1
          rw [hr] at hbad
          cases hbad
        · exact h1
      obtain ⟨q, e2, hqmem, hqbad, hparse⟩ := ih p e hpr hbad
      refine ⟨q, e2, List.mem_cons_of_mem r hqmem, hqbad, ?_⟩
      simp [parseParticipants, hr, hparse]

/-- Claim C7: CreateSession fails, returning no session, whenever any
participant identifier in the list is malformed; the error is the
invalid-participant wrapping error naming a malformed identifier from the
list, and the external session machine is never consulted on that path. -/
theorem c7_create_session_invalid_participant {σ : Type}
    (fromString : String → Except GoError ID)
    (vmCreate : List ID → List Bytes → Option σ × Option GoError)
    (participantIDs : List String) (publicKeys : List Bytes)
    (p : String) (e : GoError)
    (hmem : p ∈ participantIDs) (hbad : fromString p = Except.error e) :
    ∃ q e2, q ∈ participantIDs ∧ fromString q = Except.error e2 ∧
      SessionProvider.CreateSession fromString vmCreate participantIDs publicKeys =
        ((none : Option σ), some (GoError.wrap (("invalid participant ID ") ++ q) e2)) := by
  obtain ⟨q, e2, hq, hqb, hp⟩ := parse_fail fromString participantIDs p e hmem hbad
  exact ⟨q, e2, hq, hqb, by simp [SessionProvider.CreateSession, hp]⟩

/-- A parser rejecting every string, standing for ids.FromString on
malformed input. -/
def badParserW : String → Except GoError ID :=
  fun _ => Except.error (GoError.msg ("malformed"))

/-- A session machine that would accept any participant list. -/
def vmCreateW : List ID → List Bytes → Option Nat × Option GoError :=
  fun _ _ => (some 1, none)

/-- Claim C7, witness: a single malformed participant makes CreateSession
fail with the invalid-participant error and no session. -/
theorem c7_create_session_invalid_participant_witness :
    ∃ q e2, q ∈ [("A")] ∧ badParserW q = Except.error e2 ∧
      SessionProvider.CreateSession badParserW vmCreateW [("A")] [] =
        ((none : Option Nat), some (GoError.wrap (("invalid participant ID ") ++ q) e2)) :=
  c7_create_session_invalid_participant badParserW vmCreateW [("A")] [] ("A")
    (GoError.msg ("malformed")) (by simp) rfl

/-- Claim C10: Messenger Send and Receive are TODO stubs that never read the
running flag: for every messenger state, message and session identifier,
Send returns a nil error, Receive returns a nil slice with a nil error,
and both leave the messenger unchanged. -/
theorem c10_send_receive_unconditional (m : Messenger) (msg : Message) (sid : String) :
    m.Send msg = (m, none) ∧ m.Receive sid = (m, (none, none)) := ⟨rfl, rfl⟩

/-- Decrypting a layer under any key other than the one it was encrypted
for fails closed with DecryptionFailed. -/
theorem unwrap_wrong_key (p : OnionPacket) (k : Nat) (h : k ≠ outerKey p) :
    UnwrapOneLayer p k = Except.error OnionError.decryptionFailed := by
  cases p with
  | finalLayer k2 env =>
    have hne : ¬ (k2 = k) := by
      intro he
      exact h (by simp [outerKey, he])
    simp [UnwrapOneLayer, hne]
  | relayLayer k2 nh inner =>
    have hne : ¬ (k2 = k) := by
      intro he
      exact h (by simp [outerKey, he])
    simp [UnwrapOneLayer, hne]

/-- Unwrapping a wrapped path with the hop keys in hop order recovers the
original envelope exactly. -/
theorem unwrapAll_wrapLayers (env : Message) :
    ∀ (rest : List Hop) (h : Hop),
      unwrapAll ((h :: rest).map Hop.key) (wrapLayers env h rest) = some env := by
  intro rest
  induction rest with
  | nil =>
    intro h
    simp [wrapLayers, unwrapAll, UnwrapOneLayer]
  | cons h2 rest2 ih =>
    intro h
    simp only [List.map_cons, wrapLayers, unwrapAll, UnwrapOneLayer, if_pos rfl]
    exact ih h2

/-- Peeling i layers from a wrapped path reaches a layer encrypted exactly
under the key of hop i. -/
theorem peel_wrapLayers (env : Message) :
    ∀ (rest : List Hop) (h : Hop) (i : Nat) (hi : i < (h :: rest).length),
      ∃ q, peel i (wrapLayers env h rest) = some q ∧
        outerKey q = ((h :: rest)[i]).key := by
  intro rest
  induction rest with
  | nil =>
    intro h i hi
    have h0 : i = 0 := by
      simp at hi
      omega
    subst h0
    exact ⟨OnionPacket.finalLayer h.key env, rfl, rfl⟩
  | cons h2 rest2 ih =>
    intro h i hi
    cases i with
    | zero => exact ⟨wrapLayers env h (h2 :: rest2), rfl, rfl⟩
    | succ i2 =>
      have hi2 : i2 < (h2 :: rest2).length := by
        simp at hi ⊢
        omega
      obtain ⟨q, hq, hk⟩ := ih h2 i2 hi2
      exact ⟨q, hq, hk⟩

/-- Distinct positions of a duplicate-free list hold distinct elements. -/
theorem nodup_getElem_ne {α : Type} :
    ∀ (l : List α), l.Nodup → ∀ (i j : Nat) (hi : i < l.length) (hj : j < l.length),
      i ≠ j → l[i] ≠ l[j] := by
  intro l
  induction l with
  | nil =>
    intro _ i j hi
    simp at hi
  | cons a l ih =>
    intro hnd i j hi hj hij
    rcases List.nodup_cons.mp hnd with ⟨ha, hl⟩
    cases i with
    | zero =>
      cases j with
      | zero => exact absurd rfl hij
      | succ j2 =>
        have hj2 : j2 < l.length := by
          simp at hj
          omega
        simp only [List.getElem_cons_zero, List.getElem_cons_succ]
        intro he
        exact ha (he ▸ List.getElem_mem hj2)
    | succ i2 =>
      have hi2 : i2 < l.length := by
        simp at hi
        omega
      cases j with
      | zero =>
        simp only [List.getElem_cons_zero, List.getElem_cons_succ]
        intro he
        exact ha (he ▸ List.getElem_mem hi2)
      | succ j2 =>
        have hj2 : j2 < l.length := by
          simp at hj
          omega
        have hij2 : i2 ≠ j2 := by
          intro he
          exact hij (by rw [he])
        simp only [List.getElem_cons_succ]
        exact ih hl i2 j2 hi2 hj2 hij2

/-- Claim C6: for every envelope and every hop path meeting the configured
minimum length, with pairwise distinct hop keys as the hop selector
contract guarantees, WrapForPath succeeds, applying UnwrapOneLayer once
per hop in hop order with that hop key recovers the envelope exactly, and
no layer of the packet decrypts under the key of any hop it was not
intended for. -/
theorem c6_onion_roundtrip_isolation (env : Message) (path : List Hop) (minHops : Nat)
    (hmin : 1 ≤ minHops) (hlen : minHops ≤ path.length)
    (hnd : (path.map Hop.key).Nodup) :
    ∃ pkt, WrapForPath minHops env path = Except.ok pkt ∧
      unwrapAll (path.map Hop.key) pkt = some env ∧
      ∀ (i j : Nat) (hi : i < path.length) (hj : j < path.length), i ≠ j →
        ∀ q, peel i pkt = some q →
          UnwrapOneLayer q ((path[j]).key) =
            Except.error OnionError.decryptionFailed := by
  cases path with
  | nil =>
    simp at hlen
    omega
  | cons h rest =>
    have hnl : ¬ ((h :: rest).length < minHops) := Nat.not_lt.mpr hlen
    refine ⟨wrapLayers env h rest, ?_, unwrapAll_wrapLayers env rest h, ?_⟩
    · simp only [WrapForPath, if_neg hnl]
    · intro i j hi hj hij q hq
      obtain ⟨q2, hq2, hk⟩ := peel_wrapLayers env rest h i hi
      have hqq : q2 = q := by
        rw [hq2] at hq
        exact Option.some.inj hq
      subst hqq
      have hi2 : i < ((h :: rest).map Hop.key).length := by simpa using hi
      have hj2 : j < ((h :: rest).map Hop.key).length := by simpa using hj
      have hmapne := nodup_getElem_ne ((h :: rest).map Hop.key) hnd j i hj2 hi2 (Ne.symm hij)
      rw [List.getElem_map, List.getElem_map] at hmapne
      apply unwrap_wrong_key
      rw [hk]
      exact hmapne

/-- A concrete envelope for the onion witness. -/
def envW : Message :=
  { id := ("m1"), senderID := ("a"), recipientID := ("b"),
    ciphertext := [1], signature := [2], timestamp := 0, ttl := 60 }

/-- A concrete three-hop path with distinct keys. -/
def pathW : List Hop :=
  [{ key := 1, addr := 11 }, { key := 2, addr := 12 }, { key := 3, addr := 13 }]

/-- Claim C6, witness: the three-hop concrete path at the default minimum of
three hops. -/
theorem c6_onion_roundtrip_isolation_witness :
    ∃ pkt, WrapForPath 3 envW pathW = Except.ok pkt ∧
      unwrapAll (pathW.map Hop.key) pkt = some envW ∧
      ∀ (i j : Nat) (hi : i < pathW.length) (hj : j < pathW.length), i ≠ j →
        ∀ q, peel i pkt = some q →
          UnwrapOneLayer q ((pathW[j]).key) =
            Except.error OnionError.decryptionFailed :=
  c6_onion_roundtrip_isolation envW pathW 3 (by decide) (by decide) (by decide)

end Parsd
